import Mathlib

/-!
Verification of the MCP-CMake server's orchestration layer
(`mcp_cmake/server.py`): session state, the health-check state update,
the `tool_guard` health gate wrapped around the four gated tools
(`list_presets`, `create_project`, `build_project`, `test_project`),
and the configure-invocation construction.

The `core` module and `models.FailureResponse` are external to the file
under study; they are modelled at their interface, with subprocess
activity made observable as an explicit trace of core invocations.
-/

namespace McpCmake

/-- One diagnostic entry of a failure envelope: `{message, severity}`.
Modelled from the spec: `models.FailureResponse` is not in the source
tree; the spec gives the failure envelope shape
`{summary: string, errors: [{message: string, severity: string}]}`. -/
structure Diagnostic where
  message : String
  severity : String
deriving Repr, DecidableEq

/-- Modelled from the spec: the uniform failure envelope
`{summary, errors}` produced by `models.FailureResponse(...).dict()`. -/
structure FailureResponse where
  summary : String
  errors : List Diagnostic
deriving Repr, DecidableEq

/-- The dict returned by `core.health_check`. Modelled from the spec:
`core` is not in the source tree; the spec declares the health-check
result as `{is_healthy: bool, working_directory: string|null, ...}`.
A field is `none` when the key is absent (or maps to Python `None`),
matching how `server.py` reads it with `result.get(...)`. -/
structure HealthResult where
  is_healthy : Option Bool
  working_directory : Option String
deriving Repr, DecidableEq

/-- The module-level server state of `server.py`:
`WORKING_DIRECTORY: Optional[str] = None` and `IS_HEALTHY: bool = False`. -/
structure SessionState where
  WORKING_DIRECTORY : Option String
  IS_HEALTHY : Bool
deriving Repr, DecidableEq

/-- The state at process start, before any health check has run. -/
def initialState : SessionState :=
  { WORKING_DIRECTORY := none, IS_HEALTHY := false }

/-- Python truthiness of an `Optional[str]` value: `None` and the empty
string are falsy, every other string is truthy.  This is the test
`if working_dir:` performs in `update_state`. -/
def optStrTruthy : Option String → Bool
  | none => false
  | some s => !(s == "")

/-- `update_state(healthy, working_dir)`: always assigns `IS_HEALTHY`;
assigns `WORKING_DIRECTORY` only under `if working_dir:`. -/
def update_state (st : SessionState) (healthy : Bool)
    (working_dir : Option String) : SessionState :=
  { IS_HEALTHY := healthy,
    WORKING_DIRECTORY :=
      if optStrTruthy working_dir then working_dir
      else st.WORKING_DIRECTORY }

/-- Return value of a gated tool: either the gate's failure envelope or
the value returned by the underlying `core` function. -/
inductive ToolReturn (α : Type) where
  | failure (resp : FailureResponse)
  | success (v : α)
deriving Repr, DecidableEq

/-- Observable effect of one tool call: the session state on return,
the value returned to the caller, and the trace of `working_dir`
arguments with which the underlying `core` operation was invoked
(each such invocation is what launches a subprocess; an empty trace
means no subprocess was launched). -/
structure CallResult (α : Type) where
  state : SessionState
  value : α
  coreCalls : List (Option String)
deriving Repr

/-- The failure envelope built inside `tool_guard`'s wrapper. -/
def sessionGateEnvelope : FailureResponse :=
  { summary := "Server is not in a healthy state.",
    errors := [{ message := "Run health_check first.", severity := "error" }] }

/-- The `tool_guard` decorator's wrapper: if `not IS_HEALTHY`, return the
failure envelope without calling the wrapped function; otherwise
overwrite the `working_dir` keyword with the session's
`WORKING_DIRECTORY` and delegate to the wrapped core operation. -/
def tool_guard {α : Type} (core : Option String → α)
    (st : SessionState) : CallResult (ToolReturn α) :=
  if !st.IS_HEALTHY then
    { state := st, value := .failure sessionGateEnvelope, coreCalls := [] }
  else
    { state := st,
      value := .success (core st.WORKING_DIRECTORY),
      coreCalls := [st.WORKING_DIRECTORY] }

/-- `health_check` tool: runs `core.health_check(working_dir)` (always —
it is not wrapped by `tool_guard`), feeds the result into
`update_state`, and returns the result dict. `coreHC` stands for the
external `core.health_check`. -/
def health_check (coreHC : Option String → HealthResult)
    (st : SessionState) (working_dir : Option String) :
    CallResult HealthResult :=
  let result := coreHC working_dir
  { state := update_state st (result.is_healthy.getD false)
      result.working_directory,
    value := result,
    coreCalls := [working_dir] }

/-- `list_presets` tool: `tool_guard` around `core.list_presets`.  The
caller-supplied `working_dir` is discarded by the guard, which passes
the session's directory instead. -/
def list_presets {α : Type} (core : Option String → α)
    (st : SessionState) (working_dir : Option String) :
    CallResult (ToolReturn α) :=
  tool_guard (fun wd => core wd) st

/-- `create_project` tool: `tool_guard` around
`core.create_project(working_dir, preset, cmake_defines)`. -/
def create_project {α : Type}
    (core : Option String → String → Option (List (String × String)) → α)
    (st : SessionState) (working_dir : Option String) (preset : String)
    (cmake_defines : Option (List (String × String))) :
    CallResult (ToolReturn α) :=
  tool_guard (fun wd => core wd preset cmake_defines) st

/-- `build_project` tool: `tool_guard` around
`core.build_project(working_dir, preset, targets, verbose, parallel_jobs)`. -/
def build_project {α : Type}
    (core : Option String → String → Option (List String) → Bool →
      Option Int → α)
    (st : SessionState) (working_dir : Option String) (preset : String)
    (targets : Option (List String)) (verbose : Bool)
    (parallel_jobs : Option Int) : CallResult (ToolReturn α) :=
  tool_guard (fun wd => core wd preset targets verbose parallel_jobs) st

/-- `test_project` tool: `tool_guard` around
`core.test_project(working_dir, preset, test_filter, verbose, parallel_jobs)`. -/
def test_project {α : Type}
    (core : Option String → String → Option String → Bool →
      Option Int → α)
    (st : SessionState) (working_dir : Option String) (preset : String)
    (test_filter : Option String) (verbose : Bool)
    (parallel_jobs : Option Int) : CallResult (ToolReturn α) :=
  tool_guard (fun wd => core wd preset test_filter verbose parallel_jobs) st

/-- One `-D<KEY>=<VALUE>` override flag for a single define entry.
Modelled from the spec: `core.create_project` is not in the source
tree; the spec fixes the configure invocation form as
`--preset <name>` plus one `-D<KEY>=<VALUE>` per define. -/
def defineFlag (kv : String × String) : String :=
  "-D" ++ kv.1 ++ "=" ++ kv.2

/-- Modelled from the spec: construction of the configure invocation's
argument list — select the named preset, then append one override flag
per entry of `defines`, in the map's insertion order (the list order). -/
def configureArguments (preset : String)
    (defines : List (String × String)) : List String :=
  defines.foldl (fun acc kv => acc ++ [defineFlag kv]) ["--preset", preset]

theorem configureArguments_foldl (defines : List (String × String))
    (init : List String) :
    defines.foldl (fun acc kv => acc ++ [defineFlag kv]) init
      = init ++ defines.map defineFlag := by
  induction defines generalizing init with
  | nil => simp
  | cons kv rest ih => simp [List.foldl_cons, ih]

/-- Claim C1: for every operation other than `health_check`
(`list_presets`, `create_project`, `build_project`, `test_project`),
if the session's health flag is false at call entry, the call returns
exactly the failure envelope
`{summary: "Server is not in a healthy state.",
errors: [{message: "Run health_check first.", severity: "error"}]}`,
leaves the state unchanged, and does not invoke the underlying core
operation (empty invocation trace, so no subprocess is launched). -/
theorem gated_ops_refuse_when_unhealthy {α β γ δ : Type}
    (st : SessionState) (h : st.IS_HEALTHY = false)
    (lp : Option String → α)
    (cp : Option String → String → Option (List (String × String)) → β)
    (bp : Option String → String → Option (List String) → Bool →
      Option Int → γ)
    (tp : Option String → String → Option String → Bool → Option Int → δ)
    (wd : Option String) (preset : String)
    (defines : Option (List (String × String)))
    (targets : Option (List String)) (verbose : Bool) (jobs : Option Int)
    (tfilter : Option String) :
    list_presets lp st wd
      = { state := st,
          value := .failure
            { summary := "Server is not in a healthy state.",
              errors := [{ message := "Run health_check first.",
                           severity := "error" }] },
          coreCalls := [] }
    ∧ create_project cp st wd preset defines
      = { state := st,
          value := .failure
            { summary := "Server is not in a healthy state.",
              errors := [{ message := "Run health_check first.",
                           severity := "error" }] },
          coreCalls := [] }
    ∧ build_project bp st wd preset targets verbose jobs
      = { state := st,
          value := .failure
            { summary := "Server is not in a healthy state.",
              errors := [{ message := "Run health_check first.",
                           severity := "error" }] },
          coreCalls := [] }
    ∧ test_project tp st wd preset tfilter verbose jobs
      = { state := st,
          value := .failure
            { summary := "Server is not in a healthy state.",
              errors := [{ message := "Run health_check first.",
                           severity := "error" }] },
          coreCalls := [] } := by
  refine ⟨?_, ?_, ?_, ?_⟩ <;>
    simp [list_presets, create_project, build_project, test_project,
      tool_guard, sessionGateEnvelope, h]

/-- Claim C1 witness: from the initial (unhealthy) state, each of the
four gated operations returns the gate failure envelope with no core
invocation. -/
theorem gated_ops_refuse_when_unhealthy_witness :
    list_presets (fun _ => ()) initialState none
      = { state := initialState, value := .failure sessionGateEnvelope,
          coreCalls := [] }
    ∧ create_project (fun _ _ _ => ()) initialState none "debug" none
      = { state := initialState, value := .failure sessionGateEnvelope,
          coreCalls := [] }
    ∧ build_project (fun _ _ _ _ _ => ()) initialState none "debug" none
        false none
      = { state := initialState, value := .failure sessionGateEnvelope,
          coreCalls := [] }
    ∧ test_project (fun _ _ _ _ _ => ()) initialState none "debug" none
        false none
      = { state := initialState, value := .failure sessionGateEnvelope,
          coreCalls := [] } :=
  gated_ops_refuse_when_unhealthy initialState rfl
    (fun _ => ()) (fun _ _ _ => ()) (fun _ _ _ _ _ => ())
    (fun _ _ _ _ _ => ()) none "debug" none none false none none

/-- Claim C2 counterexample: starting from the healthy state with
working directory `"/old"`, a failed health check whose result carries
no working directory produces the state
`{working_directory: "/old", is_healthy: false}` — the `"/old"`
component of the previous state survives, so the session HealthState is
not wholly replaced by the state the check produced. -/
theorem health_state_partial_update_counterexample :
    (health_check
        (fun _ => { is_healthy := some false, working_directory := none })
        { WORKING_DIRECTORY := some "/old", IS_HEALTHY := true }
        none).state
      = { WORKING_DIRECTORY := some "/old", IS_HEALTHY := false } := by
  rfl

/-- Claim C2 (amended): on every `health_check` return, the session's
`is_healthy` flag is always replaced by the check result's value
(defaulting to false when absent); the working directory is replaced
only when the result carries a truthy working directory (present and
non-empty), and otherwise the previous working directory survives. -/
theorem health_state_replacement
    (coreHC : Option String → HealthResult) (st : SessionState)
    (cwd : Option String) :
    (health_check coreHC st cwd).state.IS_HEALTHY
      = ((coreHC cwd).is_healthy.getD false)
    ∧ (optStrTruthy (coreHC cwd).working_directory = true →
        (health_check coreHC st cwd).state.WORKING_DIRECTORY
          = (coreHC cwd).working_directory)
    ∧ (optStrTruthy (coreHC cwd).working_directory = false →
        (health_check coreHC st cwd).state.WORKING_DIRECTORY
          = st.WORKING_DIRECTORY) := by
  refine ⟨rfl, ?_, ?_⟩ <;> intro hw <;>
    simp [health_check, update_state, hw]

/-- Claim C2 (amended) witness: a healthy check carrying directory
`"/p"` records `"/p"`, and a check carrying no directory keeps the
previous one. -/
theorem health_state_replacement_witness :
    (health_check
        (fun _ => { is_healthy := some true, working_directory := some "/p" })
        initialState none).state.WORKING_DIRECTORY = some "/p"
    ∧ (health_check
        (fun _ => { is_healthy := some false, working_directory := none })
        { WORKING_DIRECTORY := some "/q", IS_HEALTHY := true }
        none).state.WORKING_DIRECTORY = some "/q" :=
  ⟨(health_state_replacement
      (fun _ => { is_healthy := some true, working_directory := some "/p" })
      initialState none).2.1 (by decide),
   (health_state_replacement
      (fun _ => { is_healthy := some false, working_directory := none })
      { WORKING_DIRECTORY := some "/q", IS_HEALTHY := true }
      none).2.2 (by decide)⟩

/-- Claim C3: each of the four gated operations leaves both session
fields (`IS_HEALTHY` and `WORKING_DIRECTORY`) unchanged, for every
session state and every argument. -/
theorem gated_ops_preserve_state {α β γ δ : Type}
    (st : SessionState)
    (lp : Option String → α)
    (cp : Option String → String → Option (List (String × String)) → β)
    (bp : Option String → String → Option (List String) → Bool →
      Option Int → γ)
    (tp : Option String → String → Option String → Bool → Option Int → δ)
    (wd : Option String) (preset : String)
    (defines : Option (List (String × String)))
    (targets : Option (List String)) (verbose : Bool) (jobs : Option Int)
    (tfilter : Option String) :
    (list_presets lp st wd).state = st
    ∧ (create_project cp st wd preset defines).state = st
    ∧ (build_project bp st wd preset targets verbose jobs).state = st
    ∧ (test_project tp st wd preset tfilter verbose jobs).state = st := by
  cases h : st.IS_HEALTHY <;>
    simp [list_presets, create_project, build_project, test_project,
      tool_guard, h]

/-- Claim C4: at process start, before any health check has run, the
session state is exactly `{is_healthy: false, working_directory: none}`,
and consequently any first gated operation invoked before a health
check returns the session-gate failure envelope. -/
theorem initial_state_unhealthy {α β γ δ : Type}
    (lp : Option String → α)
    (cp : Option String → String → Option (List (String × String)) → β)
    (bp : Option String → String → Option (List String) → Bool →
      Option Int → γ)
    (tp : Option String → String → Option String → Bool → Option Int → δ)
    (wd : Option String) (preset : String)
    (defines : Option (List (String × String)))
    (targets : Option (List String)) (verbose : Bool) (jobs : Option Int)
    (tfilter : Option String) :
    initialState.IS_HEALTHY = false
    ∧ initialState.WORKING_DIRECTORY = none
    ∧ (list_presets lp initialState wd).value
        = .failure sessionGateEnvelope
    ∧ (create_project cp initialState wd preset defines).value
        = .failure sessionGateEnvelope
    ∧ (build_project bp initialState wd preset targets verbose jobs).value
        = .failure sessionGateEnvelope
    ∧ (test_project tp initialState wd preset tfilter verbose jobs).value
        = .failure sessionGateEnvelope := by
  refine ⟨rfl, rfl, ?_, ?_, ?_, ?_⟩ <;>
    simp [list_presets, create_project, build_project, test_project,
      tool_guard, initialState]

/-- Claim C5: on every `health_check` return, the session's `is_healthy`
flag equals the check result's `is_healthy` value (defaulting to false
when absent); in particular whenever the result carries `is_healthy = b`
the flag becomes exactly `b`, so a failed check always overwrites a
previously healthy flag. -/
theorem health_flag_tracks_result
    (coreHC : Option String → HealthResult) (st : SessionState)
    (cwd : Option String) :
    (health_check coreHC st cwd).state.IS_HEALTHY
      = ((coreHC cwd).is_healthy.getD false)
    ∧ ∀ b, (coreHC cwd).is_healthy = some b →
        (health_check coreHC st cwd).state.IS_HEALTHY = b := by
  refine ⟨rfl, ?_⟩
  intro b hb
  simp [health_check, update_state, hb]

/-- Claim C5 witness: a failed check overwrites a previously healthy
flag. -/
theorem health_flag_tracks_result_witness :
    (health_check
        (fun _ => { is_healthy := some false, working_directory := none })
        { WORKING_DIRECTORY := some "/prev", IS_HEALTHY := true }
        none).state.IS_HEALTHY = false :=
  (health_flag_tracks_result
      (fun _ => { is_healthy := some false, working_directory := none })
      { WORKING_DIRECTORY := some "/prev", IS_HEALTHY := true }
      none).2 false rfl

/-- Claim C6: `health_check` is exempt from the health gate: for every
session state — the unhealthy ones included — the call invokes the
underlying core check exactly once with the caller's directory, returns
that check's result (never a gate envelope), and updates the session
state from it via `update_state`. -/
theorem health_check_exempt_from_gate
    (coreHC : Option String → HealthResult) (st : SessionState)
    (cwd : Option String) :
    (health_check coreHC st cwd).coreCalls = [cwd]
    ∧ (health_check coreHC st cwd).value = coreHC cwd
    ∧ (health_check coreHC st cwd).state
        = update_state st ((coreHC cwd).is_healthy.getD false)
            (coreHC cwd).working_directory :=
  ⟨rfl, rfl, rfl⟩

/-- Claim C7: for every `defines` list with N entries, the constructed
configure invocation is `--preset <name>` followed by exactly N
override flags, one per entry, each of the exact form
`-D<KEY>=<VALUE>`, in the same order as the entries. -/
theorem configure_invocation_defines (preset : String)
    (defines : List (String × String)) :
    configureArguments preset defines
      = ["--preset", preset]
        ++ defines.map (fun kv => "-D" ++ kv.1 ++ "=" ++ kv.2)
    ∧ (configureArguments preset defines).length = 2 + defines.length := by
  have h := configureArguments_foldl defines ["--preset", preset]
  refine ⟨h, ?_⟩
  simp [configureArguments, h]
  omega

/-- Claim C8: every gated operation that passes the health gate forwards
the session's stored `WORKING_DIRECTORY` — not the caller-supplied
`working_dir` — to the underlying core operation, for all four gated
operations. -/
theorem gated_ops_forward_session_working_dir {α β γ δ : Type}
    (st : SessionState) (h : st.IS_HEALTHY = true)
    (lp : Option String → α)
    (cp : Option String → String → Option (List (String × String)) → β)
    (bp : Option String → String → Option (List String) → Bool →
      Option Int → γ)
    (tp : Option String → String → Option String → Bool → Option Int → δ)
    (wd : Option String) (preset : String)
    (defines : Option (List (String × String)))
    (targets : Option (List String)) (verbose : Bool) (jobs : Option Int)
    (tfilter : Option String) :
    list_presets lp st wd
      = { state := st, value := .success (lp st.WORKING_DIRECTORY),
          coreCalls := [st.WORKING_DIRECTORY] }
    ∧ create_project cp st wd preset defines
      = { state := st,
          value := .success (cp st.WORKING_DIRECTORY preset defines),
          coreCalls := [st.WORKING_DIRECTORY] }
    ∧ build_project bp st wd preset targets verbose jobs
      = { state := st,
          value := .success
            (bp st.WORKING_DIRECTORY preset targets verbose jobs),
          coreCalls := [st.WORKING_DIRECTORY] }
    ∧ test_project tp st wd preset tfilter verbose jobs
      = { state := st,
          value := .success
            (tp st.WORKING_DIRECTORY preset tfilter verbose jobs),
          coreCalls := [st.WORKING_DIRECTORY] } := by
  refine ⟨?_, ?_, ?_, ?_⟩ <;>
    simp [list_presets, create_project, build_project, test_project,
      tool_guard, h]

/-- Claim C8 witness: with session directory `"/w"`, a caller-supplied
`working_dir = "/caller"` is overridden — the core operation is invoked
with `"/w"`. -/
theorem gated_ops_forward_session_working_dir_witness :
    (list_presets (fun _ => ())
        { WORKING_DIRECTORY := some "/w", IS_HEALTHY := true }
        (some "/caller")).coreCalls = [some "/w"] :=
  congrArg CallResult.coreCalls
    (gated_ops_forward_session_working_dir
      { WORKING_DIRECTORY := some "/w", IS_HEALTHY := true } rfl
      (fun _ => ()) (fun _ _ _ => ()) (fun _ _ _ _ _ => ())
      (fun _ _ _ _ _ => ()) (some "/caller") "debug" none none false
      none none).1

/-- Claim C9: the session's working directory is never cleared once set
(after any health check it still holds some directory); a health result
whose `working_directory` is `none` or the empty string leaves the
previous directory in place; and conversely a healthy result need not
record a directory — concretely, a healthy check with no directory from
the initial state leaves the directory `none`, and a subsequent gated
operation proceeds with `working_dir = none`. -/
theorem working_directory_retention :
    (∀ (coreHC : Option String → HealthResult) (st : SessionState)
       (cwd : Option String) (d : String),
       st.WORKING_DIRECTORY = some d →
       ∃ d', (health_check coreHC st cwd).state.WORKING_DIRECTORY
         = some d')
    ∧ (∀ (coreHC : Option String → HealthResult) (st : SessionState)
       (cwd : Option String),
       (coreHC cwd).working_directory = none
         ∨ (coreHC cwd).working_directory = some "" →
       (health_check coreHC st cwd).state.WORKING_DIRECTORY
         = st.WORKING_DIRECTORY)
    ∧ (health_check
          (fun _ => { is_healthy := some true, working_directory := none })
          initialState none).state
        = { WORKING_DIRECTORY := none, IS_HEALTHY := true }
    ∧ (list_presets (fun wd => wd)
        (health_check
          (fun _ => { is_healthy := some true, working_directory := none })
          initialState none).state none).coreCalls = [none] := by
  refine ⟨?_, ?_, rfl, rfl⟩
  · intro coreHC st cwd d hd
    cases hw : (coreHC cwd).working_directory with
    | none => exact ⟨d, by simp [health_check, update_state, optStrTruthy, hw, hd]⟩
    | some s =>
      by_cases hs : s = ""
      · exact ⟨d, by simp [health_check, update_state, optStrTruthy, hw, hs, hd]⟩
      · exact ⟨s, by simp [health_check, update_state, optStrTruthy, hw, hs]⟩
  · intro coreHC st cwd hw
    rcases hw with hw | hw <;>
      simp [health_check, update_state, optStrTruthy, hw]

/-- Claim C9 witness: a previously stored directory survives a check
reporting no directory, and one reporting the empty string. -/
theorem working_directory_retention_witness :
    (∃ d', (health_check
        (fun _ => { is_healthy := some false, working_directory := none })
        { WORKING_DIRECTORY := some "/kept", IS_HEALTHY := true }
        none).state.WORKING_DIRECTORY = some d')
    ∧ (health_check
        (fun _ => { is_healthy := some true, working_directory := some "" })
        { WORKING_DIRECTORY := some "/kept2", IS_HEALTHY := false }
        none).state.WORKING_DIRECTORY
      = ({ WORKING_DIRECTORY := some "/kept2", IS_HEALTHY := false } :
          SessionState).WORKING_DIRECTORY :=
  ⟨working_directory_retention.1
      (fun _ => { is_healthy := some false, working_directory := none })
      { WORKING_DIRECTORY := some "/kept", IS_HEALTHY := true }
      none "/kept" rfl,
   working_directory_retention.2.1
      (fun _ => { is_healthy := some true, working_directory := some "" })
      { WORKING_DIRECTORY := some "/kept2", IS_HEALTHY := false }
      none (Or.inr rfl)⟩

/-- Claim C10: after a `health_check`, the session is healthy exactly
when the check's result dict maps `is_healthy` to `true`; when the key
is absent the session is recorded as unhealthy. -/
theorem session_healthy_iff_result_true
    (coreHC : Option String → HealthResult) (st : SessionState)
    (cwd : Option String) :
    ((health_check coreHC st cwd).state.IS_HEALTHY = true
      ↔ (coreHC cwd).is_healthy = some true)
    ∧ ((coreHC cwd).is_healthy = none →
        (health_check coreHC st cwd).state.IS_HEALTHY = false) := by
  constructor
  · cases hio : (coreHC cwd).is_healthy <;>
      simp [health_check, update_state, hio]
  · intro hio
    simp [health_check, update_state, hio]

/-- Claim C10 witness: a result with the `is_healthy` key absent leaves
the session unhealthy, even when the previous state was healthy. -/
theorem session_healthy_iff_result_true_witness :
    (health_check
        (fun _ => { is_healthy := none, working_directory := some "/x" })
        { WORKING_DIRECTORY := none, IS_HEALTHY := true }
        none).state.IS_HEALTHY = false :=
  (session_healthy_iff_result_true
      (fun _ => { is_healthy := none, working_directory := some "/x" })
      { WORKING_DIRECTORY := none, IS_HEALTHY := true } none).2 rfl

end McpCmake
